import Mathlib

/-!
Shallow embedding of `src/bot.py` (class `ScannerBot`).

The bot's mutable state (`self._ws`, `self._img_q`, `self._last_file`,
`self.subs`) together with the filesystem contents under `scans/images`
and `scans/descriptions` is modelled by `BotState`.  File paths are
identified by their timestamp-derived integer id; the filesystem is a
pair of association lists keyed by that id.  Sending to Telegram and
over the websocket is modelled by returning the list of messages a
handler emits; whether a remote send succeeds is an oracle parameter
(`sendOk : Bool`, `ok : ChatId → Bool`).  The wall clock read by
`datetime.now` in `_save_files` is an explicit `tNow : Nat` argument
(milliseconds).  Handlers run sequentially, as python-telegram-bot
processes updates one at a time by default; `processUpdates` is that
sequential loop.
-/

set_option autoImplicit false

abbrev Bytes := List Nat
abbrev ChatId := Nat
abbrev ConnId := Nat

/-- Lookup in an association list (a directory keyed by timestamp id). -/
def getAssoc {α : Type} : List (Nat × α) → Nat → Option α
  | [], _ => none
  | (k, v) :: rest, key => if k = key then some v else getAssoc rest key

/-- Write to an association list, overwriting an existing entry
(`pathlib.Path.write_bytes` / rewriting a text file). -/
def setAssoc {α : Type} : List (Nat × α) → Nat → α → List (Nat × α)
  | [], key, v => [(key, v)]
  | (k, w) :: rest, key, v =>
    if k = key then (key, v) :: rest else (k, w) :: setAssoc rest key v

/-- `Path.touch()`: creates an empty file when the path does not exist,
and leaves the contents untouched when it does. -/
def touchDoc (docs : List (Nat × String)) (ts : Nat) : List (Nat × String) :=
  match getAssoc docs ts with
  | some _ => docs
  | none => setAssoc docs ts ""

/-- The two storage directories `scans/images` and `scans/descriptions`. -/
structure Storage where
  images : List (Nat × Bytes)
  docs : List (Nat × String)
deriving DecidableEq, Repr

/-- The mutable fields of `ScannerBot` plus storage. `imgQ` is the
`asyncio.Queue` `_img_q` (FIFO, front = next `get`). -/
structure BotState where
  ws : Option ConnId
  imgQ : List Bytes
  lastFile : Option Nat
  subs : List ChatId
  store : Storage
deriving DecidableEq, Repr

/-- `Config.TIMEOUT`. -/
def timeoutS : Nat := 15

/-- Limit `MAX` in `_plain_text`. -/
def echoMax : Nat := 4000

def awaitingMsg : String := "📸 Ожидаем файл… (≤ " ++ toString timeoutS ++ "s)"
def notConnectedMsg : String := "🚫 Сканер не подключён."
def timeoutMsg : String := "⚠️ Фото не пришло."
def nothingMsg : String := "❔ Пока нет фотографий для описания."
def connectedMsg : String := "🟢 Сканер подключён"
def disconnectedMsg : String := "🔴 Сканер отключён"

/-- Messages a handler emits towards the requesting chat: `reply_text`,
`note.edit_text`, `send_photo`, `note.delete`. -/
inductive Msg where
  | text (t : String)
  | editNote (t : String)
  | photo (img : Bytes) (filename : String) (caption : String)
  | deleteNote
deriving DecidableEq, Repr

/-- Caption `` `name` `` used by `_cmd_scan`. -/
def captionOf (name : String) : String := "`" ++ name ++ "`"

/-- `self._subs_add(cid)`: idempotent set insert. -/
def subsAdd (s : BotState) (cid : ChatId) : BotState :=
  { s with subs := if cid ∈ s.subs then s.subs else s.subs ++ [cid] }

/-- `_ws_send_scan`: `False` when `self._ws` is `None`; otherwise the
send may raise, in which case the method also returns `False`
(`sendOk` decides it). -/
def wsSendScan (s : BotState) (sendOk : Bool) : Bool :=
  match s.ws with
  | none => false
  | some _ => sendOk

/-- A binary frame in `_ws_handler`'s receive loop:
`await self._img_q.put(msg)`. -/
def deliverBytes (s : BotState) (msg : Bytes) : BotState :=
  { s with imgQ := s.imgQ ++ [msg] }

/-- `_save_files(img)`: id is the current time in ms; the image is
written (overwriting on collision), the description is `touch`ed, and
`_last_file` is pointed at it.  Returns the two file names. -/
def saveFiles (s : BotState) (tNow : Nat) (img : Bytes) :
    BotState × String × String :=
  let ts := tNow
  let imgName := toString ts ++ ".png"
  let desName := toString ts ++ ".txt"
  let store := { images := setAssoc s.store.images ts img,
                 docs := touchDoc s.store.docs ts : Storage }
  ({ s with store := store, lastFile := some ts }, imgName, desName)

/-- `_cmd_scan`.  `arrival` is the image frame, if any, that the device
pushes while the handler is blocked in
`asyncio.wait_for(self._img_q.get(), timeout=TIMEOUT)`; it is only
consulted when the queue is empty at that point, since `get` returns a
queued item at once. -/
def cmdScan (s : BotState) (chat : ChatId) (tNow : Nat) (sendOk : Bool)
    (arrival : Option Bytes) : BotState × List Msg :=
  let s1 := subsAdd s chat
  if wsSendScan s1 sendOk = false then
    (s1, [Msg.text awaitingMsg, Msg.editNote notConnectedMsg])
  else
    match s1.imgQ with
    | img :: rest =>
      let r := saveFiles { s1 with imgQ := rest } tNow img
      (r.1, [Msg.text awaitingMsg,
             Msg.photo img r.2.1 (captionOf r.2.1), Msg.deleteNote])
    | [] =>
      match arrival with
      | some img =>
        let r := saveFiles s1 tNow img
        (r.1, [Msg.text awaitingMsg,
               Msg.photo img r.2.1 (captionOf r.2.1), Msg.deleteNote])
      | none => (s1, [Msg.text awaitingMsg, Msg.editNote timeoutMsg])

/-- Python `str.strip()` on the message text (whitespace from both
ends). -/
def pyStrip (t : String) : String :=
  String.mk (((t.data.dropWhile Char.isWhitespace).reverse.dropWhile
      Char.isWhitespace).reverse)

/-- Header of the echo reply in `_plain_text`. -/
def updatedHeader (fid : Nat) : String :=
  "✏️ Обновлено `" ++ toString fid ++ ".txt`:\n"

/-- `full[-MAX:]`: the last `n` characters of `t`. -/
def strTail (n : Nat) (t : String) : String :=
  String.mk (t.data.drop (t.data.length - n))

/-- `_plain_text`: append `text + "\n"` to `_last_file` (mode `"a"`
creates a missing file, hence `getD ""` for the prior contents), read
the file back, echo at most `MAX` trailing characters. -/
def plainText (s : BotState) (raw : String) : BotState × List Msg :=
  match s.lastFile with
  | none => (s, [Msg.text nothingMsg])
  | some fid =>
    let text := pyStrip raw
    if text = "" then (s, [])
    else
      let old := Option.getD (getAssoc s.store.docs fid) ""
      let full := old ++ text ++ "\n"
      let toSend := if full.length > echoMax then strTail echoMax full else full
      ({ s with store := { images := s.store.images,
                           docs := setAssoc s.store.docs fid full } },
       [Msg.text (updatedHeader fid ++ toSend)])

/-- The loop body of `_notify_all`: walk the subscriber list in order,
sending to each; a failed send is recorded in `dead` and the walk
continues.  Returns `(sent, dead)`. -/
def notifyPass (ok : ChatId → Bool) (txt : String) :
    List ChatId → List (ChatId × String) × List ChatId
  | [] => ([], [])
  | c :: rest =>
    let r := notifyPass ok txt rest
    if ok c then ((c, txt) :: r.1, r.2) else (r.1, c :: r.2)

/-- `_notify_all`: after the pass, each dead subscriber is discarded
from the set. -/
def notifyAll (s : BotState) (txt : String) (ok : ChatId → Bool) :
    BotState × List (ChatId × String) :=
  let r := notifyPass ok txt s.subs
  ({ s with subs := s.subs.filter (fun c => !(r.2.contains c)) }, r.1)

/-- `_ws_handler` on connect: `self._ws = ws` (unconditional
replacement) then notify all subscribers. -/
def wsConnect (s : BotState) (conn : ConnId) (ok : ChatId → Bool) :
    BotState × List (ChatId × String) :=
  notifyAll { s with ws := some conn } connectedMsg ok

/-- The `finally` block of `_ws_handler`: when any connection's receive
loop ends, `self._ws = None` unconditionally — the closing connection's
identity is never compared to the current slot — then notify all. -/
def wsClose (s : BotState) (_closing : ConnId) (ok : ChatId → Bool) :
    BotState × List (ChatId × String) :=
  notifyAll { s with ws := none } disconnectedMsg ok

/-- Telegram updates relevant to the claims. -/
inductive Event where
  | scan (chat : ChatId) (tNow : Nat) (sendOk : Bool) (arrival : Option Bytes)
  | plain (text : String)
deriving DecidableEq, Repr

def stepUpdate (s : BotState) : Event → BotState × List Msg
  | .scan c t ok arr => cmdScan s c t ok arr
  | .plain txt => plainText s txt

/-- Sequential processing of the update queue: python-telegram-bot runs
one handler to completion before starting the next
(`concurrent_updates` is off). -/
def processUpdates (s : BotState) : List Event → BotState × List (List Msg)
  | [] => (s, [])
  | e :: rest =>
    let r := stepUpdate s e
    let r2 := processUpdates r.1 rest
    (r2.1, r.2 :: r2.2)

/-! ### Basic lemmas about the embedded operations -/

theorem subsAdd_ws (s : BotState) (c : ChatId) : (subsAdd s c).ws = s.ws := rfl

theorem subsAdd_imgQ (s : BotState) (c : ChatId) : (subsAdd s c).imgQ = s.imgQ := rfl

theorem subsAdd_lastFile (s : BotState) (c : ChatId) :
    (subsAdd s c).lastFile = s.lastFile := rfl

theorem subsAdd_store (s : BotState) (c : ChatId) : (subsAdd s c).store = s.store := rfl

theorem saveFiles_ws (s : BotState) (t : Nat) (img : Bytes) :
    (saveFiles s t img).1.ws = s.ws := rfl

theorem saveFiles_imgQ (s : BotState) (t : Nat) (img : Bytes) :
    (saveFiles s t img).1.imgQ = s.imgQ := rfl

theorem getAssoc_setAssoc {α : Type} (l : List (Nat × α)) (k : Nat) (v : α) :
    getAssoc (setAssoc l k v) k = some v := by
  induction l with
  | nil => simp [setAssoc, getAssoc]
  | cons hd tl ih =>
    obtain ⟨k', v'⟩ := hd
    by_cases hk : k' = k <;> simp [setAssoc, getAssoc, hk, ih]

/-- When the device is connected, the send succeeds, the queue is empty
and an image arrives within the window, `_cmd_scan` persists it and
replies with the photo. -/
theorem cmdScan_completes (s : BotState) (chat : ChatId) (t : Nat) (b : Bytes)
    (conn : ConnId) (hw : s.ws = some conn) (hq : s.imgQ = []) :
    cmdScan s chat t true (some b) =
      ((saveFiles (subsAdd s chat) t b).1,
       [Msg.text awaitingMsg,
        Msg.photo b (toString t ++ ".png") (captionOf (toString t ++ ".png")),
        Msg.deleteNote]) := by
  have hw' : (subsAdd s chat).ws = some conn := by rw [subsAdd_ws, hw]
  have hq' : (subsAdd s chat).imgQ = [] := by rw [subsAdd_imgQ, hq]
  simp only [cmdScan, wsSendScan, hw', hq', saveFiles]
  rfl

/-- When the device is connected, the queue is empty and no image
arrives within the window, `_cmd_scan` times out with the timeout
edit and leaves everything but the subscriber set unchanged. -/
theorem cmdScan_timeout (s : BotState) (chat : ChatId) (t : Nat)
    (conn : ConnId) (hw : s.ws = some conn) (hq : s.imgQ = []) :
    cmdScan s chat t true none =
      (subsAdd s chat, [Msg.text awaitingMsg, Msg.editNote timeoutMsg]) := by
  have hw' : (subsAdd s chat).ws = some conn := by rw [subsAdd_ws, hw]
  have hq' : (subsAdd s chat).imgQ = [] := by rw [subsAdd_imgQ, hq]
  simp only [cmdScan, wsSendScan, hw', hq']
  rfl

/-! ### Concrete states used as witnesses -/

/-- Device connected (connection 0), empty queue, no active document,
no subscribers, empty storage. -/
def s0Idle : BotState :=
  { ws := some 0, imgQ := [], lastFile := none, subs := [],
    store := { images := [], docs := [] } }

/-! ### C1 -/

/-- C1: the claim is false on the code.  With no request pending,
a binary frame is `put` on `_img_q`, and the next `/scan` pops it from
the queue and returns exactly those bytes as its result: the delivered
bytes `[7, 7, 7]` come back as the photo of a later scan request. -/
theorem c1_counterexample :
    (deliverBytes s0Idle [7, 7, 7]).imgQ = [[7, 7, 7]] ∧
    (cmdScan (deliverBytes s0Idle [7, 7, 7]) 1 1000 true none).2 =
      [Msg.text awaitingMsg,
       Msg.photo [7, 7, 7] (toString 1000 ++ ".png")
         (captionOf (toString 1000 ++ ".png")),
       Msg.deleteNote] :=
  ⟨rfl, rfl⟩

/-- C1 (amended): a binary frame delivered while no scan request is
pending is buffered on the image queue; the delivery itself leaves the
ActiveDocument and the stored artifacts unchanged, but the buffered
bytes are returned as the result of the next scan request. -/
theorem c1_amended_buffered (s : BotState) (b : Bytes) (chat : ChatId)
    (t : Nat) (conn : ConnId) (hw : s.ws = some conn) (hq : s.imgQ = []) :
    (deliverBytes s b).lastFile = s.lastFile ∧
    (deliverBytes s b).store = s.store ∧
    (deliverBytes s b).imgQ = s.imgQ ++ [b] ∧
    (cmdScan (deliverBytes s b) chat t true none).2 =
      [Msg.text awaitingMsg,
       Msg.photo b (toString t ++ ".png") (captionOf (toString t ++ ".png")),
       Msg.deleteNote] := by
  refine ⟨rfl, rfl, rfl, ?_⟩
  have hw' : (subsAdd (deliverBytes s b) chat).ws = some conn := by
    rw [subsAdd_ws]; exact hw
  have hq' : (subsAdd (deliverBytes s b) chat).imgQ = [b] := by
    rw [subsAdd_imgQ]
    show s.imgQ ++ [b] = [b]
    rw [hq]; rfl
  simp only [cmdScan, wsSendScan, hw', hq', saveFiles]
  rfl

/-- C1 (amended), witness at a concrete input. -/
theorem c1_amended_buffered_witness :
    (cmdScan (deliverBytes s0Idle [7]) 1 1000 true none).2 =
      [Msg.text awaitingMsg,
       Msg.photo [7] (toString 1000 ++ ".png")
         (captionOf (toString 1000 ++ ".png")),
       Msg.deleteNote] :=
  (c1_amended_buffered s0Idle [7] 1 1000 0 rfl rfl).2.2.2

/-! ### C2 -/

/-- C2: the claim is false on the code.  `_cmd_scan` has no
pending-request guard: a second scan command that arrives while the
first is outstanding waits in the update queue, is processed after the
first, and completes normally with its own photo — it is not rejected
with any `AlreadyPending` failure. -/
theorem c2_counterexample :
    (processUpdates s0Idle
      [Event.scan 1 1000 true (some [1]),
       Event.scan 2 2000 true (some [2])]).2 =
      [[Msg.text awaitingMsg,
        Msg.photo [1] (toString 1000 ++ ".png")
          (captionOf (toString 1000 ++ ".png")),
        Msg.deleteNote],
       [Msg.text awaitingMsg,
        Msg.photo [2] (toString 2000 ++ ".png")
          (captionOf (toString 2000 ++ ".png")),
        Msg.deleteNote]] :=
  rfl

/-- C2 (amended): at most one scan request is in flight at a time only
because updates are handled sequentially; a scan issued while another
is outstanding waits in the update queue and is processed after the
first completes — it neither fails with `AlreadyPending` nor overwrites
the first request, whose replies are exactly those it would produce
alone. -/
theorem c2_amended_serializes (s : BotState) (c1 c2 : ChatId) (t1 t2 : Nat)
    (b1 b2 : Bytes) (conn : ConnId) (hw : s.ws = some conn) (hq : s.imgQ = []) :
    (processUpdates s
      [Event.scan c1 t1 true (some b1), Event.scan c2 t2 true (some b2)]).2 =
      [[Msg.text awaitingMsg,
        Msg.photo b1 (toString t1 ++ ".png") (captionOf (toString t1 ++ ".png")),
        Msg.deleteNote],
       [Msg.text awaitingMsg,
        Msg.photo b2 (toString t2 ++ ".png") (captionOf (toString t2 ++ ".png")),
        Msg.deleteNote]] ∧
    ((processUpdates s
      [Event.scan c1 t1 true (some b1), Event.scan c2 t2 true (some b2)]).2).head? =
      some (cmdScan s c1 t1 true (some b1)).2 := by
  have h1 := cmdScan_completes s c1 t1 b1 conn hw hq
  have hw2 : (saveFiles (subsAdd s c1) t1 b1).1.ws = some conn := by
    rw [saveFiles_ws, subsAdd_ws]; exact hw
  have hq2 : (saveFiles (subsAdd s c1) t1 b1).1.imgQ = [] := by
    rw [saveFiles_imgQ, subsAdd_imgQ]; exact hq
  have h2 := cmdScan_completes (saveFiles (subsAdd s c1) t1 b1).1 c2 t2 b2 conn hw2 hq2
  constructor
  · show ((cmdScan s c1 t1 true (some b1)).2 ::
        (processUpdates (cmdScan s c1 t1 true (some b1)).1
          [Event.scan c2 t2 true (some b2)]).2) = _
    rw [h1]
    show _ :: (cmdScan (saveFiles (subsAdd s c1) t1 b1).1 c2 t2 true (some b2)).2 :: [] = _
    rw [h2]
  · show some (cmdScan s c1 t1 true (some b1)).2 = _
    rfl

/-- C2 (amended), witness at a concrete input. -/
theorem c2_amended_serializes_witness :
    (processUpdates s0Idle
      [Event.scan 1 1000 true (some [1]), Event.scan 2 2000 true (some [2])]).2 =
      [[Msg.text awaitingMsg,
        Msg.photo [1] (toString 1000 ++ ".png")
          (captionOf (toString 1000 ++ ".png")),
        Msg.deleteNote],
       [Msg.text awaitingMsg,
        Msg.photo [2] (toString 2000 ++ ".png")
          (captionOf (toString 2000 ++ ".png")),
        Msg.deleteNote]] :=
  (c2_amended_serializes s0Idle 1 2 1000 2000 [1] [2] 0 rfl rfl).1

/-! ### C3 -/

/-- State with an active document `5` whose stored content is `"old"`,
used as a concrete witness input. -/
def s0Doc : BotState :=
  { ws := some 0, imgQ := [], lastFile := some 5, subs := [],
    store := { images := [], docs := [(5, "old")] } }

/-- C3: with no ActiveDocument, `_plain_text` replies that there is
nothing to describe and writes nothing; with an ActiveDocument and a
message that is nonempty after stripping, it appends the stripped text
plus exactly one newline, and reading the document back yields the
prior content followed by that text and the newline (never
truncated). -/
theorem c3_append_roundtrip (s : BotState) (raw : String) :
    (s.lastFile = none → plainText s raw = (s, [Msg.text nothingMsg])) ∧
    (∀ fid, s.lastFile = some fid → pyStrip raw ≠ "" →
      getAssoc (plainText s raw).1.store.docs fid =
        some (Option.getD (getAssoc s.store.docs fid) "" ++ pyStrip raw ++ "\n")) := by
  constructor
  · intro h
    simp only [plainText, h]
  · intro fid hf ht
    simp only [plainText, hf, if_neg ht]
    exact getAssoc_setAssoc _ _ _

/-- C3, witness at a concrete input: appending to the active document
`5` holding `"old"`. -/
theorem c3_append_roundtrip_witness :
    getAssoc (plainText s0Doc " hi ").1.store.docs 5 =
      some (Option.getD (getAssoc s0Doc.store.docs 5) "" ++ pyStrip " hi " ++ "\n") :=
  (c3_append_roundtrip s0Doc " hi ").2 5 rfl (by decide)

/-! ### C4 -/

/-- State whose description directory already holds a nonempty document
under id `1000`, the id a colliding `_save_files` call will reuse. -/
def s0Coll : BotState :=
  { ws := none, imgQ := [], lastFile := none, subs := [],
    store := { images := [], docs := [(1000, "old")] } }

/-- C4: the claim is false on the code.  When the derived id collides
with an existing document, `Path.touch()` does not truncate it: after
`_save_files` at time `1000` the document under id `1000` still holds
`"old"`, not the empty string. -/
theorem c4_counterexample :
    getAssoc (saveFiles s0Coll 1000 [5]).1.store.docs 1000 = some ("old") ∧
    ("old" : String) ≠ "" :=
  ⟨rfl, by decide⟩

/-- C4 (amended): `_save_files` derives the id from the current time in
milliseconds, writes the image under it (overwriting any previous image
with that id), sets the ActiveDocument to the same-id document, and both
returned names share the id; the document is created empty only when
the id is fresh — on a collision the existing document's content is
preserved, because `touch` does not truncate. -/
theorem c4_amended_collision (s : BotState) (t : Nat) (img : Bytes) :
    (saveFiles s t img).2.1 = toString t ++ ".png" ∧
    (saveFiles s t img).2.2 = toString t ++ ".txt" ∧
    getAssoc (saveFiles s t img).1.store.images t = some img ∧
    (saveFiles s t img).1.lastFile = some t ∧
    (getAssoc s.store.docs t = none →
      getAssoc (saveFiles s t img).1.store.docs t = some ("")) ∧
    (∀ c, getAssoc s.store.docs t = some c →
      getAssoc (saveFiles s t img).1.store.docs t = some c) := by
  refine ⟨rfl, rfl, getAssoc_setAssoc _ _ _, rfl, ?_, ?_⟩
  · intro h
    show getAssoc (touchDoc s.store.docs t) t = some ("")
    simp only [touchDoc, h]
    exact getAssoc_setAssoc _ _ _
  · intro c h
    show getAssoc (touchDoc s.store.docs t) t = some c
    simp only [touchDoc, h]

/-- C4 (amended), witness at a concrete input: a fresh id yields an
empty document. -/
theorem c4_amended_collision_witness :
    getAssoc (saveFiles s0Idle 1000 [5]).1.store.docs 1000 = some ("") :=
  (c4_amended_collision s0Idle 1000 [5]).2.2.2.2.1 rfl

/-! ### C5 -/

theorem strTail_length_le (n : Nat) (t : String) : (strTail n t).length ≤ n := by
  show (t.data.drop (t.data.length - n)).length ≤ n
  rw [List.length_drop]
  omega

theorem strTail_append (n : Nat) (t : String) :
    String.mk (t.data.take (t.data.length - n)) ++ strTail n t = t := by
  show String.mk (t.data.take (t.data.length - n) ++ t.data.drop (t.data.length - n)) = t
  rw [List.take_append_drop]

/-- The `to_send` expression of `_plain_text`: the full text read back,
cut to its last `MAX` characters when longer. -/
def echoOf (s : BotState) (raw : String) (fid : Nat) : String :=
  let full := Option.getD (getAssoc s.store.docs fid) "" ++ pyStrip raw ++ "\n"
  if full.length > echoMax then strTail echoMax full else full

/-- C5: the text echoed back by `_plain_text` is the stored text cut to
at most `MAX = 4000` trailing characters: storage receives the whole
appended content, the reply carries `echoOf`, and `echoOf` is at most
4000 characters long and a suffix of the full stored content. -/
theorem c5_echo_bounded_suffix (s : BotState) (raw : String) (fid : Nat)
    (hf : s.lastFile = some fid) (ht : pyStrip raw ≠ "") :
    getAssoc (plainText s raw).1.store.docs fid =
      some (Option.getD (getAssoc s.store.docs fid) "" ++ pyStrip raw ++ "\n") ∧
    (plainText s raw).2 = [Msg.text (updatedHeader fid ++ echoOf s raw fid)] ∧
    (echoOf s raw fid).length ≤ echoMax ∧
    (∃ p : String, p ++ echoOf s raw fid =
      Option.getD (getAssoc s.store.docs fid) "" ++ pyStrip raw ++ "\n") := by
  simp only [plainText, hf, if_neg ht, echoOf]
  refine ⟨getAssoc_setAssoc _ _ _, trivial, ?_, ?_⟩
  · split
    · exact strTail_length_le _ _
    · omega
  · split
    · exact ⟨_, strTail_append _ _⟩
    · exact ⟨"", rfl⟩

/-- C5, witness at a concrete input. -/
theorem c5_echo_bounded_suffix_witness :
    (echoOf s0Doc " hi " 5).length ≤ echoMax ∧
    (∃ p : String, p ++ echoOf s0Doc " hi " 5 =
      Option.getD (getAssoc s0Doc.store.docs 5) "" ++ pyStrip " hi " ++ "\n") :=
  ⟨(c5_echo_bounded_suffix s0Doc " hi " 5 rfl (by decide)).2.2.1,
   (c5_echo_bounded_suffix s0Doc " hi " 5 rfl (by decide)).2.2.2⟩

/-! ### C6 -/

/-- C6: when the device is connected and no image arrives within the
timeout window, `_cmd_scan` ends with exactly one timeout edit
(`timeoutMsg`) to the requesting chat, leaves the queue empty and the
rest of the state untouched, and a scan request issued afterwards is
immediately accepted: it proceeds and completes when its image
arrives. -/
theorem c6_timeout_frees (s : BotState) (chat : ChatId) (t : Nat)
    (conn : ConnId) (hw : s.ws = some conn) (hq : s.imgQ = []) :
    (cmdScan s chat t true none).2 =
      [Msg.text awaitingMsg, Msg.editNote timeoutMsg] ∧
    (cmdScan s chat t true none).1.imgQ = [] ∧
    (cmdScan s chat t true none).1.ws = some conn ∧
    (cmdScan s chat t true none).1.lastFile = s.lastFile ∧
    (cmdScan s chat t true none).1.store = s.store ∧
    (∀ c2 t2 b, (cmdScan (cmdScan s chat t true none).1 c2 t2 true (some b)).2 =
      [Msg.text awaitingMsg,
       Msg.photo b (toString t2 ++ ".png") (captionOf (toString t2 ++ ".png")),
       Msg.deleteNote]) := by
  have h := cmdScan_timeout s chat t conn hw hq
  rw [h]
  refine ⟨rfl, ?_, ?_, rfl, rfl, ?_⟩
  · rw [subsAdd_imgQ]; exact hq
  · rw [subsAdd_ws]; exact hw
  · intro c2 t2 b
    have hw2 : (subsAdd s chat).ws = some conn := by rw [subsAdd_ws]; exact hw
    have hq2 : (subsAdd s chat).imgQ = [] := by rw [subsAdd_imgQ]; exact hq
    rw [cmdScan_completes (subsAdd s chat) c2 t2 b conn hw2 hq2]

/-- C6, witness at a concrete input. -/
theorem c6_timeout_frees_witness :
    (cmdScan s0Idle 1 1000 true none).2 =
      [Msg.text awaitingMsg, Msg.editNote timeoutMsg] ∧
    (cmdScan (cmdScan s0Idle 1 1000 true none).1 2 2000 true (some [9])).2 =
      [Msg.text awaitingMsg,
       Msg.photo [9] (toString 2000 ++ ".png") (captionOf (toString 2000 ++ ".png")),
       Msg.deleteNote] :=
  ⟨(c6_timeout_frees s0Idle 1 1000 0 rfl rfl).1,
   (c6_timeout_frees s0Idle 1 1000 0 rfl rfl).2.2.2.2.2 2 2000 [9]⟩

/-! ### C7 -/

/-- C7: when no device is connected, `_cmd_scan` edits the note to the
"scanner not connected" reply and returns before `asyncio.wait_for` is
ever entered: the result does not depend on any later image arrival (no
timer is started), and the queue, the ActiveDocument and the stored
artifacts are untouched — only the subscriber set gains the
requester. -/
theorem c7_not_connected (s : BotState) (chat : ChatId) (t : Nat)
    (sendOk : Bool) (arrival : Option Bytes) (hw : s.ws = none) :
    cmdScan s chat t sendOk arrival =
      (subsAdd s chat, [Msg.text awaitingMsg, Msg.editNote notConnectedMsg]) ∧
    (subsAdd s chat).imgQ = s.imgQ ∧
    (subsAdd s chat).lastFile = s.lastFile ∧
    (subsAdd s chat).store = s.store := by
  have hw' : (subsAdd s chat).ws = none := by rw [subsAdd_ws]; exact hw
  refine ⟨?_, rfl, rfl, rfl⟩
  simp only [cmdScan, wsSendScan, hw']
  rfl

/-- C7, witness at a concrete input. -/
theorem c7_not_connected_witness :
    cmdScan { s0Idle with ws := none } 1 1000 true (some [3]) =
      (subsAdd { s0Idle with ws := none } 1,
       [Msg.text awaitingMsg, Msg.editNote notConnectedMsg]) :=
  (c7_not_connected { s0Idle with ws := none } 1 1000 true (some [3]) rfl).1

/-! ### C8 -/

theorem notifyPass_sent_mem (ok : ChatId → Bool) (txt : String)
    (l : List ChatId) (c : ChatId) (hc : c ∈ l) (hok : ok c = true) :
    (c, txt) ∈ (notifyPass ok txt l).1 := by
  induction l with
  | nil => cases hc
  | cons hd tl ih =>
    by_cases h1 : ok hd = true
    · rw [show (notifyPass ok txt (hd :: tl)).1 =
          (hd, txt) :: (notifyPass ok txt tl).1 from by simp [notifyPass, h1]]
      rcases List.mem_cons.mp hc with h | h
      · subst h; exact List.mem_cons_self _ _
      · exact List.mem_cons_of_mem _ (ih h)
    · have h1' : ok hd = false := by simpa using h1
      rw [show (notifyPass ok txt (hd :: tl)).1 =
          (notifyPass ok txt tl).1 from by simp [notifyPass, h1']]
      rcases List.mem_cons.mp hc with h | h
      · subst h; rw [hok] at h1'; cases h1'
      · exact ih h

theorem notifyPass_dead_iff (ok : ChatId → Bool) (txt : String)
    (l : List ChatId) (c : ChatId) :
    c ∈ (notifyPass ok txt l).2 ↔ c ∈ l ∧ ok c = false := by
  induction l with
  | nil => simp [notifyPass]
  | cons hd tl ih =>
    by_cases h1 : ok hd = true
    · rw [show (notifyPass ok txt (hd :: tl)).2 =
          (notifyPass ok txt tl).2 from by simp [notifyPass, h1]]
      rw [ih]
      constructor
      · rintro ⟨h2, h3⟩; exact ⟨List.mem_cons_of_mem _ h2, h3⟩
      · rintro ⟨h2, h3⟩
        rcases List.mem_cons.mp h2 with h4 | h4
        · subst h4; rw [h1] at h3; cases h3
        · exact ⟨h4, h3⟩
    · have h1' : ok hd = false := by simpa using h1
      rw [show (notifyPass ok txt (hd :: tl)).2 =
          hd :: (notifyPass ok txt tl).2 from by simp [notifyPass, h1']]
      constructor
      · intro h2
        rcases List.mem_cons.mp h2 with h4 | h4
        · subst h4; exact ⟨List.mem_cons_self _ _, h1'⟩
        · obtain ⟨h5, h6⟩ := ih.mp h4
          exact ⟨List.mem_cons_of_mem _ h5, h6⟩
      · rintro ⟨h2, h3⟩
        rcases List.mem_cons.mp h2 with h4 | h4
        · subst h4; exact List.mem_cons_self _ _
        · exact List.mem_cons_of_mem _ (ih.mpr ⟨h4, h3⟩)

theorem notifyPass_sent_txt (ok : ChatId → Bool) (txt : String)
    (l : List ChatId) (p : ChatId × String)
    (hp : p ∈ (notifyPass ok txt l).1) : p.2 = txt := by
  induction l with
  | nil => simp [notifyPass] at hp
  | cons hd tl ih =>
    by_cases h1 : ok hd = true
    · rw [show (notifyPass ok txt (hd :: tl)).1 =
          (hd, txt) :: (notifyPass ok txt tl).1 from by simp [notifyPass, h1]] at hp
      rcases List.mem_cons.mp hp with h | h
      · subst h; rfl
      · exact ih h
    · have h1' : ok hd = false := by simpa using h1
      rw [show (notifyPass ok txt (hd :: tl)).1 =
          (notifyPass ok txt tl).1 from by simp [notifyPass, h1']] at hp
      exact ih hp

theorem notifyAll_subs_mem (s : BotState) (txt : String) (ok : ChatId → Bool)
    (c : ChatId) :
    c ∈ (notifyAll s txt ok).1.subs ↔
      c ∈ s.subs ∧ c ∉ (notifyPass ok txt s.subs).2 := by
  show c ∈ s.subs.filter _ ↔ _
  simp [List.mem_filter, List.contains, List.elem_iff]

/-- C8: `_notify_all` walks the whole subscriber set even when some
sends fail: every subscriber whose send succeeds receives the text and
stays in the registry, and every subscriber whose send fails is
discarded from the registry afterwards. -/
theorem c8_notify_prune (s : BotState) (txt : String) (ok : ChatId → Bool)
    (c : ChatId) (hc : c ∈ s.subs) :
    (ok c = true →
      (c, txt) ∈ (notifyAll s txt ok).2 ∧ c ∈ (notifyAll s txt ok).1.subs) ∧
    (ok c = false → c ∉ (notifyAll s txt ok).1.subs) := by
  constructor
  · intro hok
    constructor
    · exact notifyPass_sent_mem ok txt s.subs c hc hok
    · rw [notifyAll_subs_mem]
      refine ⟨hc, ?_⟩
      intro hd
      rw [(notifyPass_dead_iff ok txt s.subs c).mp hd |>.2] at hok
      cases hok
  · intro hok
    rw [notifyAll_subs_mem]
    rintro ⟨-, hd⟩
    exact hd ((notifyPass_dead_iff ok txt s.subs c).mpr ⟨hc, hok⟩)

/-- C8, witness at a concrete input: subscriber `1` fails, subscriber
`2` succeeds. -/
theorem c8_notify_prune_witness :
    ((fun c => decide (c = 2)) (1 : ChatId) = false →
      (1 : ChatId) ∉ (notifyAll { s0Idle with subs := [1, 2] } connectedMsg
        (fun c => decide (c = 2))).1.subs) ∧
    ((fun c => decide (c = 2)) (2 : ChatId) = true →
      ((2 : ChatId), connectedMsg) ∈ (notifyAll { s0Idle with subs := [1, 2] }
        connectedMsg (fun c => decide (c = 2))).2 ∧
      (2 : ChatId) ∈ (notifyAll { s0Idle with subs := [1, 2] } connectedMsg
        (fun c => decide (c = 2))).1.subs) :=
  ⟨(c8_notify_prune { s0Idle with subs := [1, 2] } connectedMsg
      (fun c => decide (c = 2)) 1 (by decide)).2,
   (c8_notify_prune { s0Idle with subs := [1, 2] } connectedMsg
      (fun c => decide (c = 2)) 2 (by decide)).1⟩

/-! ### C9 -/

/-- C9: when a second device connects while connection `oldC` is live,
`_ws_handler` overwrites the single slot with the new connection; the
only notification fired at that moment is the "scanner connected" text
— no disconnect notification is synthesized for the replaced
connection. -/
theorem c9_replace_no_disconnect (s : BotState) (oldC newC : ConnId)
    (ok : ChatId → Bool) (hw : s.ws = some oldC) :
    (wsConnect s newC ok).1.ws = some newC ∧
    (∀ p, p ∈ (wsConnect s newC ok).2 → p.2 = connectedMsg) ∧
    (∀ p, p ∈ (wsConnect s newC ok).2 → p.2 ≠ disconnectedMsg) := by
  refine ⟨rfl, ?_, ?_⟩
  · intro p hp
    exact notifyPass_sent_txt ok connectedMsg _ p hp
  · intro p hp
    rw [notifyPass_sent_txt ok connectedMsg _ p hp]
    decide

/-- C9, witness at a concrete input. -/
theorem c9_replace_no_disconnect_witness :
    (wsConnect { s0Idle with subs := [1] } 5 (fun _ => true)).1.ws = some 5 ∧
    (∀ p, p ∈ (wsConnect { s0Idle with subs := [1] } 5 (fun _ => true)).2 →
      p.2 ≠ disconnectedMsg) :=
  ⟨(c9_replace_no_disconnect { s0Idle with subs := [1] } 0 5 (fun _ => true) rfl).1,
   (c9_replace_no_disconnect { s0Idle with subs := [1] } 0 5 (fun _ => true) rfl).2.2⟩

/-! ### C10 -/

/-- C10: when any connection's receive loop ends, the `finally` block
clears the slot and notifies of disconnection without comparing the
closing connection to the current slot: even when the closing
connection `oldC` had already been replaced by the still-live `newC`,
the slot becomes empty, every reachable subscriber is told the scanner
disconnected, and a subsequent `_ws_send_scan` returns `False`. -/
theorem c10_close_unconditional (s : BotState) (oldC newC : ConnId)
    (ok : ChatId → Bool) (hw : s.ws = some newC) (hne : oldC ≠ newC) :
    (wsClose s oldC ok).1.ws = none ∧
    (∀ c, c ∈ s.subs → ok c = true →
      (c, disconnectedMsg) ∈ (wsClose s oldC ok).2) ∧
    (∀ sendOk, wsSendScan (wsClose s oldC ok).1 sendOk = false) := by
  refine ⟨rfl, ?_, ?_⟩
  · intro c hc hok
    exact notifyPass_sent_mem ok disconnectedMsg _ c hc hok
  · intro sendOk
    rfl

/-- C10, witness at a concrete input: connection 0 was replaced by the
still-live connection 5, then connection 0's receive loop ends. -/
theorem c10_close_unconditional_witness :
    (wsClose { s0Idle with ws := some 5, subs := [1] } 0 (fun _ => true)).1.ws = none ∧
    ((1 : ChatId), disconnectedMsg) ∈
      (wsClose { s0Idle with ws := some 5, subs := [1] } 0 (fun _ => true)).2 ∧
    wsSendScan (wsClose { s0Idle with ws := some 5, subs := [1] } 0
      (fun _ => true)).1 true = false :=
  ⟨(c10_close_unconditional { s0Idle with ws := some 5, subs := [1] } 0 5
      (fun _ => true) rfl (by decide)).1,
   (c10_close_unconditional { s0Idle with ws := some 5, subs := [1] } 0 5
      (fun _ => true) rfl (by decide)).2.1 1 (by decide) rfl,
   (c10_close_unconditional { s0Idle with ws := some 5, subs := [1] } 0 5
      (fun _ => true) rfl (by decide)).2.2 true⟩
